import Mathlib

/-!
Shallow embedding of `src/firmware/src/controllers/battery_charger_controller.py`
(class `BatteryChargerController`).

Modelling conventions:
* Python floats are modelled by `PyFloat`: either NaN or an exact rational.
  Comparisons involving NaN are `false`, as in IEEE-754 / Python.
* Python ints (duty values, steps) are modelled by `ℤ`.
* Times (`time.ticks_ms()`) are rationals in milliseconds; interval
  configuration fields are rationals in seconds, as in the source.
* Hardware side effects (`self.pca9685.duty(...)`, `self.ina3221.read_channel`,
  `self._safety_check` invocations in the loop) are recorded in an explicit
  action trace; the controller object becomes an explicit state record that
  every method threads through.
* `read_measurements` takes the raw sensor outcome as a parameter:
  `some r` is a successful `read_channel`, `none` is the `except` branch
  (transport failure), which yields the all-NaN sentinel dictionary.
-/

/-- A Python float: NaN or an exact rational value. -/
inductive PyFloat where
  | nan : PyFloat
  | val : ℚ → PyFloat
deriving DecidableEq, Repr

namespace PyFloat

/-- `math.isnan(x)`. -/
def isNan : PyFloat → Bool
  | nan => true
  | val _ => false

/-- `x - q` for a rational right operand. -/
def subQ : PyFloat → ℚ → PyFloat
  | nan, _ => nan
  | val a, q => val (a - q)

/-- `abs(x)` (the sign test form evaluates on literals; it agrees with `|a|`). -/
def fabs : PyFloat → PyFloat
  | nan => nan
  | val a => val (if a < 0 then -a else a)

theorem fabs_val (a : ℚ) : fabs (val a) = val |a| := by
  simp only [fabs, abs]
  rcases lt_or_le a 0 with h | h
  · simp [if_pos h, max_eq_right (by linarith : a ≤ -a)]
  · simp [if_neg (not_lt.mpr h), max_eq_left (by linarith : -a ≤ a)]

/-- `x <= q`; false when `x` is NaN. -/
def leQ : PyFloat → ℚ → Bool
  | nan, _ => false
  | val a, q => decide (a ≤ q)

/-- `x > q`; false when `x` is NaN. -/
def gtQ : PyFloat → ℚ → Bool
  | nan, _ => false
  | val a, q => decide (q < a)

/-- `x < q`; false when `x` is NaN. -/
def ltQ : PyFloat → ℚ → Bool
  | nan, _ => false
  | val a, q => decide (a < q)

/-- `x * y`, NaN-propagating. -/
def mul : PyFloat → PyFloat → PyFloat
  | nan, _ => nan
  | _, nan => nan
  | val a, val b => val (a * b)

/-- `x / q` for a nonzero rational constant. -/
def divQ : PyFloat → ℚ → PyFloat
  | nan, _ => nan
  | val a, q => val (a / q)

end PyFloat

/-- The measurement dictionary built by `read_measurements`. -/
structure Meas where
  voltage : PyFloat
  current : PyFloat
  power : PyFloat
  duty_cycle : ℤ
  timestamp : ℚ
deriving DecidableEq, Repr

/-- A raw successful `ina3221.read_channel` result (`bus_voltage`, `current`). -/
structure Reading where
  bus_voltage : PyFloat
  current : PyFloat
deriving DecidableEq, Repr

/-- One observable hardware/side effect of the controller. -/
inductive HwAction where
  | sensorRead : HwAction
  | dutyWrite : ℤ → HwAction
  | safetyCheck : HwAction
deriving DecidableEq, Repr

/-- Mode string constant `MODE_VOLTAGE_REGULATION`. -/
def MODE_VOLTAGE_REGULATION : String := "voltage_regulation"

/-- Mode string constant `MODE_CURRENT_LIMITING`. -/
def MODE_CURRENT_LIMITING : String := "current_limiting"

/-- Mode string constant `MODE_CC_CV`. -/
def MODE_CC_CV : String := "cc_cv"

/-- Mode string constant `MODE_CUSTOM`. -/
def MODE_CUSTOM : String := "custom"

/-- Mode string constant `MODE_STOPPED`. -/
def MODE_STOPPED : String := "stopped"

/-- The mutable state of a `BatteryChargerController` instance
(hardware pin configuration omitted: it only parameterises the two I2C
driver objects, which the action trace abstracts). -/
structure Controller where
  target_voltage : ℚ
  target_current : ℚ
  voltage_tolerance : ℚ
  current_tolerance : ℚ
  duty_step : ℤ
  min_duty : ℤ
  max_duty : ℤ
  update_interval : ℚ
  sensor_read_interval : ℚ
  pwm_update_interval : ℚ
  hybrid_mode : Bool
  cached_measurements : Option Meas
  last_sensor_read : ℚ
  current_duty : ℤ
  current_mode : String
  is_running : Bool
  max_voltage : ℚ
  max_current : ℚ
  min_voltage : ℚ
  cycle_count : ℤ
  total_energy : ℚ
  start_time : ℚ

/-- `__init__` followed by `_initialize_hardware`: builds the initial state
and performs the initial unclamped duty write `pca9685.duty(ch, current_duty)`.
Arguments mirror the control-parameter arguments of the Python constructor;
`sensor_read_interval_arg`/`pwm_update_interval_arg` are the optional hybrid
arguments (`None` ↦ `none`). -/
def init_controller (target_voltage target_current voltage_tolerance
    current_tolerance : ℚ) (duty_step min_duty max_duty : ℤ)
    (update_interval : ℚ)
    (sensor_read_interval_arg pwm_update_interval_arg : Option ℚ) :
    Controller × List HwAction :=
  let c : Controller :=
    { target_voltage := target_voltage
      target_current := target_current
      voltage_tolerance := voltage_tolerance
      current_tolerance := current_tolerance
      duty_step := duty_step
      min_duty := min_duty
      max_duty := max_duty
      update_interval := update_interval
      sensor_read_interval := sensor_read_interval_arg.getD update_interval
      pwm_update_interval := pwm_update_interval_arg.getD update_interval
      hybrid_mode := sensor_read_interval_arg.isSome && pwm_update_interval_arg.isSome
      cached_measurements := none
      last_sensor_read := 0
      current_duty := 1000
      current_mode := MODE_STOPPED
      is_running := false
      max_voltage := 30
      max_current := 5000
      min_voltage := 1/10
      cycle_count := 0
      total_energy := 0
      start_time := 0 }
  (c, [HwAction.dutyWrite c.current_duty])

/-- `read_measurements`: `r = some d` is a successful `read_channel`,
`r = none` the exception branch producing the NaN sentinel dictionary.
`now` is `time.ticks_ms()`. -/
def read_measurements (c : Controller) (r : Option Reading) (now : ℚ) :
    Meas × List HwAction :=
  match r with
  | some d =>
      ({ voltage := d.bus_voltage
         current := d.current
         power := (d.bus_voltage.mul d.current).divQ 1000
         duty_cycle := c.current_duty
         timestamp := now }, [HwAction.sensorRead])
  | none =>
      ({ voltage := PyFloat.nan
         current := PyFloat.nan
         power := PyFloat.nan
         duty_cycle := c.current_duty
         timestamp := now }, [HwAction.sensorRead])

/-- `set_target_voltage`: validates against `[0, max_voltage]`; returns the
(possibly unchanged) state and the Python return value. -/
def set_target_voltage (c : Controller) (voltage : ℚ) : Controller × Bool :=
  if voltage < 0 ∨ voltage > c.max_voltage then (c, false)
  else ({ c with target_voltage := voltage }, true)

/-- `set_target_current`: validates against `[0, max_current]`. -/
def set_target_current (c : Controller) (current : ℚ) : Controller × Bool :=
  if current < 0 ∨ current > c.max_current then (c, false)
  else ({ c with target_current := current }, true)

/-- `set_duty_cycle`: rejects a request outside `[min_duty, max_duty]`,
otherwise stores the duty and writes it to the PCA9685. -/
def set_duty_cycle (c : Controller) (duty : ℤ) :
    Controller × List HwAction × Bool :=
  if duty < c.min_duty ∨ duty > c.max_duty then (c, [], false)
  else ({ c with current_duty := duty }, [HwAction.dutyWrite duty], true)

/-- `set_control_parameters`: stores every supplied value unconditionally
(no validation) and returns `None` (so the result is just the new state). -/
def set_control_parameters (c : Controller)
    (duty_step : Option ℤ) (voltage_tolerance : Option ℚ)
    (current_tolerance : Option ℚ) (update_interval : Option ℚ) : Controller :=
  let c := match duty_step with
    | some v => { c with duty_step := v }
    | none => c
  let c := match voltage_tolerance with
    | some v => { c with voltage_tolerance := v }
    | none => c
  let c := match current_tolerance with
    | some v => { c with current_tolerance := v }
    | none => c
  match update_interval with
  | some v => { c with update_interval := v }
  | none => c

/-- `_safety_check`: NaN, overvoltage and overcurrent tests in order;
`true` means safe. Pure: reads only the sample and the limits. -/
def _safety_check (c : Controller) (m : Meas) : Bool :=
  if m.voltage.isNan ∨ m.current.isNan then false
  else if m.voltage.gtQ c.max_voltage then false
  else if m.current.gtQ c.max_current then false
  else true

/-- `_voltage_regulation_step`: tiered adaptive voltage regulation step.
Returns the new state and the actuator writes performed. -/
def _voltage_regulation_step (c : Controller) (m : Meas) :
    Controller × List HwAction :=
  let voltage_error := m.voltage.subQ c.target_voltage
  if voltage_error.fabs.leQ c.voltage_tolerance then (c, [])
  else
    let step :=
      if voltage_error.fabs.gtQ 1 then c.duty_step * 8
      else if voltage_error.fabs.gtQ (1/2) then c.duty_step * 4
      else if voltage_error.fabs.gtQ (1/5) then c.duty_step * 2
      else c.duty_step
    if voltage_error.gtQ 0 then
      let new_duty := min (c.current_duty + step) c.max_duty
      if new_duty ≠ c.current_duty then
        ({ c with current_duty := new_duty }, [HwAction.dutyWrite new_duty])
      else (c, [])
    else
      let new_duty := max (c.current_duty - step) c.min_duty
      if new_duty ≠ c.current_duty then
        ({ c with current_duty := new_duty }, [HwAction.dutyWrite new_duty])
      else (c, [])

/-- `_current_regulation_step`: tiered adaptive current regulation step. -/
def _current_regulation_step (c : Controller) (m : Meas) :
    Controller × List HwAction :=
  let current_error := m.current.subQ c.target_current
  if current_error.fabs.leQ c.current_tolerance then (c, [])
  else
    let step :=
      if current_error.fabs.gtQ 500 then c.duty_step * 8
      else if current_error.fabs.gtQ 250 then c.duty_step * 4
      else if current_error.fabs.gtQ 100 then c.duty_step * 2
      else c.duty_step
    if current_error.gtQ 0 then
      let new_duty := min (c.current_duty + step) c.max_duty
      if new_duty ≠ c.current_duty then
        ({ c with current_duty := new_duty }, [HwAction.dutyWrite new_duty])
      else (c, [])
    else
      let new_duty := max (c.current_duty - step) c.min_duty
      if new_duty ≠ c.current_duty then
        ({ c with current_duty := new_duty }, [HwAction.dutyWrite new_duty])
      else (c, [])

/-- `_cc_cv_step`: delegates to the current step below the voltage target,
else to the voltage step. -/
def _cc_cv_step (c : Controller) (m : Meas) : Controller × List HwAction :=
  if m.voltage.ltQ c.target_voltage then _current_regulation_step c m
  else _voltage_regulation_step c m

/-- `stop_regulation`: clears the run flag, returns to `MODE_STOPPED`,
reads a final measurement (`r`/`now` are the sensor outcome and clock at
shutdown) and drives the duty to `max_duty` through `set_duty_cycle`. -/
def stop_regulation (c : Controller) (r : Option Reading) (now : ℚ) :
    Controller × List HwAction :=
  let c1 := { c with is_running := false, current_mode := MODE_STOPPED }
  let fm := read_measurements c1 r now
  let res := set_duty_cycle c1 c1.max_duty
  (res.1, fm.2 ++ res.2.1)

/-- The hybrid fresh-read branch of the regulation loop body: read the
sensor, cache the sample, stamp `last_sensor_read`, and run the safety
check; the final `Bool` is `true` when the safety check failed (loop
`break`). -/
def hybrid_fresh_read (c : Controller) (now : ℚ) (r : Option Reading) :
    Controller × List HwAction × Meas × Bool :=
  let rm := read_measurements c r now
  let m := rm.1
  let c1 := { c with cached_measurements := some m, last_sensor_read := now }
  (c1, rm.2 ++ [HwAction.safetyCheck], m, !(_safety_check c1 m))

/-- The measurement-acquisition section at the top of the loop body of
`start_regulation`: hybrid cache reuse (fresh read only when there is no
cached sample or the sensor interval elapsed) versus the standard
every-cycle read. Returns the updated state, the emitted actions, the
sample handed to the step, and whether the safety check failed. -/
def acquire_measurements (c : Controller) (now : ℚ) (r : Option Reading) :
    Controller × List HwAction × Meas × Bool :=
  if c.hybrid_mode then
    match c.cached_measurements with
    | none => hybrid_fresh_read c now r
    | some cm =>
        if now - c.last_sensor_read ≥ c.sensor_read_interval * 1000 then
          hybrid_fresh_read c now r
        else (c, [], cm, false)
  else
    let rm := read_measurements c r now
    (c, rm.2 ++ [HwAction.safetyCheck], rm.1, !(_safety_check c rm.1))

/-- The mode dispatch of the loop body: `MODE_CUSTOM` (and any other
value of the loop-local `mode` variable) performs no built-in step. -/
def dispatch_step (c : Controller) (mode : String) (m : Meas) :
    Controller × List HwAction :=
  if mode = MODE_VOLTAGE_REGULATION then _voltage_regulation_step c m
  else if mode = MODE_CURRENT_LIMITING then _current_regulation_step c m
  else if mode = MODE_CC_CV then _cc_cv_step c m
  else (c, [])

/-- One iteration of the `while self.is_running` loop body in
`start_regulation`, up to (and excluding) the `asyncio.sleep`.
`mode` is the loop-local mode argument, `now` is `time.ticks_ms()` at the
top of the cycle, `r` the sensor outcome a fresh read would produce.
The final `Bool` is `true` when the safety check failed and the loop
`break`s (skipping the step and the statistics update). -/
def loop_cycle (c : Controller) (mode : String) (now : ℚ)
    (r : Option Reading) : Controller × List HwAction × Bool :=
  let gather := acquire_measurements c now r
  let c1 := gather.1
  let acts := gather.2.1
  let m := gather.2.2.1
  if gather.2.2.2 then (c1, acts, true)
  else
    let stepped := dispatch_step c1 mode m
    let c2 := { stepped.1 with cycle_count := stepped.1.cycle_count + 1 }
    (c2, acts ++ stepped.2, false)

/-- One external event driving the cooperative loop: a normal cycle (with
its clock value and the sensor outcome a fresh read would see), an
`asyncio.CancelledError` delivered at the sleep point, or an exception
raised during the cycle. -/
inductive Event where
  | cycle : ℚ → Option Reading → Event
  | cancelled : Event
  | errored : Event
deriving DecidableEq, Repr

/-- The `try/except/finally` regulation loop of `start_regulation`: cycles
run until the safety check breaks, a cancellation or exception arrives, or
the (finite) observation ends — every exit funnels through
`stop_regulation`, which reads with sensor outcome `fr` at clock `fn`. -/
def run_loop (c : Controller) (mode : String) (events : List Event)
    (fr : Option Reading) (fn : ℚ) : Controller × List HwAction :=
  match events with
  | [] => stop_regulation c fr fn
  | Event.cancelled :: _ => stop_regulation c fr fn
  | Event.errored :: _ => stop_regulation c fr fn
  | Event.cycle now r :: rest =>
      let step := loop_cycle c mode now r
      if step.2.2 then
        let fin := stop_regulation step.1 fr fn
        (fin.1, step.2.1 ++ fin.2)
      else
        let cont := run_loop step.1 mode rest fr fn
        (cont.1, step.2.1 ++ cont.2)

/-- `start_regulation`: validates the mode argument (`none` defaults to
voltage regulation), resets the run statistics and the hybrid cache, then
runs the loop. The `Bool` is `false` exactly on the early `return False`
for an invalid mode. -/
def start_regulation (c : Controller) (mode_arg : Option String)
    (start_now : ℚ) (events : List Event) (fr : Option Reading) (fn : ℚ) :
    Controller × List HwAction × Bool :=
  let mode := mode_arg.getD MODE_VOLTAGE_REGULATION
  if mode = MODE_VOLTAGE_REGULATION ∨ mode = MODE_CURRENT_LIMITING ∨
      mode = MODE_CC_CV ∨ mode = MODE_CUSTOM then
    let c1 := { c with
                current_mode := mode
                is_running := true
                cycle_count := 0
                start_time := start_now
                last_sensor_read := 0
                cached_measurements := none }
    let res := run_loop c1 mode events fr fn
    (res.1, res.2, true)
  else (c, [], false)

/-- Iterated loop cycles without an exit event: processes each
`(now, reading)` pair with `loop_cycle`, stopping early on a safety break;
the `Bool` records whether a break occurred. -/
def run_cycles (c : Controller) (mode : String)
    (inputs : List (ℚ × Option Reading)) :
    Controller × List HwAction × Bool :=
  match inputs with
  | [] => (c, [], false)
  | (now, r) :: rest =>
      let step := loop_cycle c mode now r
      if step.2.2 then (step.1, step.2.1, true)
      else
        let cont := run_cycles step.1 mode rest
        (cont.1, step.2.1 ++ cont.2.1, cont.2.2)

/-- `true` iff every actuator write in the trace lies in `[lo, hi]`. -/
def writesInRange (lo hi : ℤ) (acts : List HwAction) : Bool :=
  acts.all fun a =>
    match a with
    | HwAction.dutyWrite d => decide (lo ≤ d ∧ d ≤ hi)
    | _ => true

/-- A controller built with the Python default construction parameters. -/
def default_controller : Controller :=
  (init_controller (36/5) 1000 (1/20) 50 2 0 4095 (1/100) none none).1

/-- The spec-side tier multiplier for the voltage step
(thresholds 1.0 / 0.5 / 0.2 V on `|err|`). -/
def voltage_tier (e : ℚ) : ℤ :=
  if e > 1 then 8 else if e > 1/2 then 4 else if e > 1/5 then 2 else 1

/-- The spec-side tier multiplier for the current step
(thresholds 500 / 250 / 100 mA on `|err|`). -/
def current_tier (e : ℚ) : ℤ :=
  if e > 500 then 8 else if e > 250 then 4 else if e > 100 then 2 else 1

/-- Concrete sample of end-to-end scenario A (voltage 8.0 V). -/
def sampleA : Meas := ⟨PyFloat.val 8, PyFloat.val 500, PyFloat.nan, 1000, 0⟩

/-- Concrete sample of end-to-end scenario B (voltage 7.21 V). -/
def sampleB : Meas := ⟨PyFloat.val (721/100), PyFloat.val 500, PyFloat.nan, 1000, 0⟩

theorem clamp_inc_mem {lo hi d s : ℤ} (h1 : lo ≤ d) (h2 : d ≤ hi) (hs : 0 ≤ s) :
    lo ≤ min (d + s) hi ∧ min (d + s) hi ≤ hi := by omega

theorem clamp_dec_mem {lo hi d s : ℤ} (h1 : lo ≤ d) (h2 : d ≤ hi) (hs : 0 ≤ s) :
    lo ≤ max (d - s) lo ∧ max (d - s) lo ≤ hi := by omega

theorem vstep_fields (c : Controller) (m : Meas) :
    (_voltage_regulation_step c m).1.min_duty = c.min_duty ∧
    (_voltage_regulation_step c m).1.max_duty = c.max_duty ∧
    (_voltage_regulation_step c m).1.cycle_count = c.cycle_count ∧
    (_voltage_regulation_step c m).1.duty_step = c.duty_step := by
  unfold _voltage_regulation_step
  dsimp only
  split_ifs <;> simp

theorem cstep_fields (c : Controller) (m : Meas) :
    (_current_regulation_step c m).1.min_duty = c.min_duty ∧
    (_current_regulation_step c m).1.max_duty = c.max_duty ∧
    (_current_regulation_step c m).1.cycle_count = c.cycle_count ∧
    (_current_regulation_step c m).1.duty_step = c.duty_step := by
  unfold _current_regulation_step
  dsimp only
  split_ifs <;> simp

theorem ccstep_fields (c : Controller) (m : Meas) :
    (_cc_cv_step c m).1.min_duty = c.min_duty ∧
    (_cc_cv_step c m).1.max_duty = c.max_duty ∧
    (_cc_cv_step c m).1.cycle_count = c.cycle_count ∧
    (_cc_cv_step c m).1.duty_step = c.duty_step := by
  unfold _cc_cv_step
  split_ifs
  · exact cstep_fields c m
  · exact vstep_fields c m

theorem vstep_range (c : Controller) (m : Meas)
    (h1 : c.min_duty ≤ c.current_duty) (h2 : c.current_duty ≤ c.max_duty)
    (hs : 0 ≤ c.duty_step) :
    (c.min_duty ≤ (_voltage_regulation_step c m).1.current_duty ∧
      (_voltage_regulation_step c m).1.current_duty ≤ c.max_duty) ∧
    writesInRange c.min_duty c.max_duty (_voltage_regulation_step c m).2 = true := by
  unfold _voltage_regulation_step
  dsimp only
  split_ifs <;> simp [writesInRange] <;> omega

theorem cstep_range (c : Controller) (m : Meas)
    (h1 : c.min_duty ≤ c.current_duty) (h2 : c.current_duty ≤ c.max_duty)
    (hs : 0 ≤ c.duty_step) :
    (c.min_duty ≤ (_current_regulation_step c m).1.current_duty ∧
      (_current_regulation_step c m).1.current_duty ≤ c.max_duty) ∧
    writesInRange c.min_duty c.max_duty (_current_regulation_step c m).2 = true := by
  unfold _current_regulation_step
  dsimp only
  split_ifs <;> simp [writesInRange] <;> omega

theorem dispatch_fields (c : Controller) (mode : String) (m : Meas) :
    (dispatch_step c mode m).1.min_duty = c.min_duty ∧
    (dispatch_step c mode m).1.max_duty = c.max_duty ∧
    (dispatch_step c mode m).1.cycle_count = c.cycle_count := by
  unfold dispatch_step
  split_ifs
  · exact ⟨(vstep_fields c m).1, (vstep_fields c m).2.1, (vstep_fields c m).2.2.1⟩
  · exact ⟨(cstep_fields c m).1, (cstep_fields c m).2.1, (cstep_fields c m).2.2.1⟩
  · exact ⟨(ccstep_fields c m).1, (ccstep_fields c m).2.1, (ccstep_fields c m).2.2.1⟩
  · exact ⟨rfl, rfl, rfl⟩

theorem vstep_acts_only_writes (c : Controller) (m : Meas) :
    HwAction.sensorRead ∉ (_voltage_regulation_step c m).2 ∧
    HwAction.safetyCheck ∉ (_voltage_regulation_step c m).2 := by
  unfold _voltage_regulation_step
  dsimp only
  split_ifs <;> simp

theorem cstep_acts_only_writes (c : Controller) (m : Meas) :
    HwAction.sensorRead ∉ (_current_regulation_step c m).2 ∧
    HwAction.safetyCheck ∉ (_current_regulation_step c m).2 := by
  unfold _current_regulation_step
  dsimp only
  split_ifs <;> simp

theorem ccstep_acts_only_writes (c : Controller) (m : Meas) :
    HwAction.sensorRead ∉ (_cc_cv_step c m).2 ∧
    HwAction.safetyCheck ∉ (_cc_cv_step c m).2 := by
  unfold _cc_cv_step
  split_ifs
  · exact cstep_acts_only_writes c m
  · exact vstep_acts_only_writes c m

theorem dispatch_acts_only_writes (c : Controller) (mode : String) (m : Meas) :
    HwAction.sensorRead ∉ (dispatch_step c mode m).2 ∧
    HwAction.safetyCheck ∉ (dispatch_step c mode m).2 := by
  unfold dispatch_step
  split_ifs
  · exact vstep_acts_only_writes c m
  · exact cstep_acts_only_writes c m
  · exact ccstep_acts_only_writes c m
  · simp

theorem acquire_state (c : Controller) (now : ℚ) (r : Option Reading) :
    (acquire_measurements c now r).1.min_duty = c.min_duty ∧
    (acquire_measurements c now r).1.max_duty = c.max_duty ∧
    (acquire_measurements c now r).1.cycle_count = c.cycle_count := by
  unfold acquire_measurements hybrid_fresh_read
  rcases hh : c.hybrid_mode with _ | _ <;>
    rcases hc : c.cached_measurements with _ | cm <;>
    dsimp only <;> split_ifs <;> exact ⟨rfl, rfl, rfl⟩

theorem loop_cycle_min_max (c : Controller) (mode : String) (now : ℚ)
    (r : Option Reading) :
    (loop_cycle c mode now r).1.min_duty = c.min_duty ∧
    (loop_cycle c mode now r).1.max_duty = c.max_duty := by
  obtain ⟨ha1, ha2, _⟩ := acquire_state c now r
  obtain ⟨hd1, hd2, _⟩ := dispatch_fields (acquire_measurements c now r).1 mode
    (acquire_measurements c now r).2.2.1
  unfold loop_cycle
  dsimp only
  split_ifs with h1
  · exact ⟨ha1, ha2⟩
  · exact ⟨hd1.trans ha1, hd2.trans ha2⟩

theorem stop_regulation_spec (c : Controller) (r : Option Reading) (n : ℚ)
    (h : c.min_duty ≤ c.max_duty) :
    (stop_regulation c r n).1.is_running = false ∧
    (stop_regulation c r n).1.current_mode = MODE_STOPPED ∧
    (stop_regulation c r n).1.current_duty = c.max_duty ∧
    (stop_regulation c r n).1.cycle_count = c.cycle_count ∧
    (stop_regulation c r n).1.start_time = c.start_time ∧
    HwAction.sensorRead ∈ (stop_regulation c r n).2 := by
  unfold stop_regulation set_duty_cycle read_measurements
  have hcond : ¬ (c.max_duty < c.min_duty ∨ c.max_duty > c.max_duty) := by omega
  rcases r with _ | rd <;> dsimp only <;> rw [if_neg hcond] <;>
    exact ⟨rfl, rfl, rfl, rfl, rfl, List.mem_append_left _ (List.mem_singleton_self _)⟩

theorem acquire_acts_hybrid (c : Controller) (now : ℚ) (r : Option Reading)
    (hh : c.hybrid_mode = true) :
    ((acquire_measurements c now r).2.1 =
        [HwAction.sensorRead, HwAction.safetyCheck] ∧
      (c.cached_measurements = none ∨
        c.sensor_read_interval * 1000 ≤ now - c.last_sensor_read)) ∨
    ((acquire_measurements c now r).2.1 = [] ∧
      ¬ (c.cached_measurements = none ∨
        c.sensor_read_interval * 1000 ≤ now - c.last_sensor_read) ∧
      (acquire_measurements c now r).2.2.2 = false) := by
  unfold acquire_measurements hybrid_fresh_read read_measurements
  rw [hh, if_pos rfl]
  rcases hc : c.cached_measurements with _ | cm
  · left
    constructor
    · rcases r with _ | rd <;> rfl
    · exact Or.inl rfl
  · dsimp only
    split_ifs with ht
    · left
      constructor
      · rcases r with _ | rd <;> rfl
      · exact Or.inr ht
    · right
      refine ⟨rfl, ?_, rfl⟩
      push_neg
      exact ⟨fun hcontra => by simp [hc] at hcontra, not_le.mp ht⟩

/-- The hybrid-configured controller of the cache-reuse scenario
(`sensor_read_interval` 10 ms, `pwm_update_interval` 1 ms), as left by the
prelude of `start_regulation` in voltage-regulation mode. -/
def hybrid_start : Controller :=
  { (init_controller (36/5) 1000 (1/20) 50 2 0 4095 (1/100)
      (some (1/100)) (some (1/1000))).1 with
    current_mode := MODE_VOLTAGE_REGULATION
    is_running := true }

/-- Ten scheduler cycles, 1 ms (one actuation interval) apart, over a
steady 8 V / 900 mA reading. -/
def hybrid_inputs : List (ℚ × Option Reading) :=
  [(0, some ⟨PyFloat.val 8, PyFloat.val 900⟩), (1, some ⟨PyFloat.val 8, PyFloat.val 900⟩),
   (2, some ⟨PyFloat.val 8, PyFloat.val 900⟩), (3, some ⟨PyFloat.val 8, PyFloat.val 900⟩),
   (4, some ⟨PyFloat.val 8, PyFloat.val 900⟩), (5, some ⟨PyFloat.val 8, PyFloat.val 900⟩),
   (6, some ⟨PyFloat.val 8, PyFloat.val 900⟩), (7, some ⟨PyFloat.val 8, PyFloat.val 900⟩),
   (8, some ⟨PyFloat.val 8, PyFloat.val 900⟩), (9, some ⟨PyFloat.val 8, PyFloat.val 900⟩)]

/-- C1: every duty value that a voltage regulation step, a current
regulation step, or a manual `set_duty_cycle` stores in the controller
state or sends to the actuator lies in `[min_duty, max_duty]`, given the
clamp invariant's preconditions (current duty in range, nonnegative step
size); `set_duty_cycle` rejects out-of-range requests as a no-op. -/
theorem duty_write_clamp_invariant (c : Controller) (m m' : Meas) (d : ℤ)
    (h1 : c.min_duty ≤ c.current_duty) (h2 : c.current_duty ≤ c.max_duty)
    (hs : 0 ≤ c.duty_step) :
    (c.min_duty ≤ (_voltage_regulation_step c m).1.current_duty ∧
      (_voltage_regulation_step c m).1.current_duty ≤ c.max_duty ∧
      writesInRange c.min_duty c.max_duty (_voltage_regulation_step c m).2 = true) ∧
    (c.min_duty ≤ (_current_regulation_step c m').1.current_duty ∧
      (_current_regulation_step c m').1.current_duty ≤ c.max_duty ∧
      writesInRange c.min_duty c.max_duty (_current_regulation_step c m').2 = true) ∧
    (c.min_duty ≤ (set_duty_cycle c d).1.current_duty ∧
      (set_duty_cycle c d).1.current_duty ≤ c.max_duty ∧
      writesInRange c.min_duty c.max_duty (set_duty_cycle c d).2.1 = true) ∧
    ((d < c.min_duty ∨ d > c.max_duty) → set_duty_cycle c d = (c, [], false)) := by
  obtain ⟨⟨hv1, hv2⟩, hv3⟩ := vstep_range c m h1 h2 hs
  obtain ⟨⟨hc1, hc2⟩, hc3⟩ := cstep_range c m' h1 h2 hs
  refine ⟨⟨hv1, hv2, hv3⟩, ⟨hc1, hc2, hc3⟩, ?_, ?_⟩
  · unfold set_duty_cycle
    split_ifs with h
    · exact ⟨h1, h2, rfl⟩
    · push_neg at h
      simp only [writesInRange, List.all_cons, List.all_nil]
      refine ⟨by omega, by omega, ?_⟩
      simp only [Bool.and_true, decide_eq_true_eq]
      omega
  · intro h
    unfold set_duty_cycle
    rw [if_pos h]

/-- C2: the voltage step is a no-op when `|voltage - target_voltage|` is
within tolerance; otherwise it moves the duty by `duty_step` times the
8/4/2/1 tier multiplier (thresholds 1.0/0.5/0.2 V), up towards `max_duty`
when the error is positive and down towards `min_duty` when negative,
clamped; concretely, with the default configuration (target 7.2 V,
tolerance 0.05 V, step 2) a sample of 8.0 V raises the duty by exactly 8
and a sample of 7.21 V changes nothing. -/
theorem voltage_step_tiered_spec (c : Controller) (v : ℚ) (m : Meas)
    (hv : m.voltage = PyFloat.val v) :
    (|v - c.target_voltage| ≤ c.voltage_tolerance →
      _voltage_regulation_step c m = (c, [])) ∧
    (¬ |v - c.target_voltage| ≤ c.voltage_tolerance →
      (0 < v - c.target_voltage →
        (_voltage_regulation_step c m).1.current_duty =
          min (c.current_duty + c.duty_step * voltage_tier |v - c.target_voltage|)
            c.max_duty) ∧
      (v - c.target_voltage < 0 →
        (_voltage_regulation_step c m).1.current_duty =
          max (c.current_duty - c.duty_step * voltage_tier |v - c.target_voltage|)
            c.min_duty)) ∧
    (_voltage_regulation_step default_controller sampleA).1.current_duty =
      default_controller.current_duty + 8 ∧
    _voltage_regulation_step default_controller sampleB = (default_controller, []) := by
  refine ⟨?_, ?_, ?_, ?_⟩
  · intro h
    unfold _voltage_regulation_step
    rw [hv]
    simp only [PyFloat.subQ, PyFloat.fabs_val, PyFloat.leQ, decide_eq_true_eq]
    rw [if_pos h]
  · intro h
    unfold _voltage_regulation_step
    rw [hv]
    simp only [PyFloat.subQ, PyFloat.fabs_val, PyFloat.leQ, PyFloat.gtQ,
      voltage_tier, decide_eq_true_eq, gt_iff_lt]
    rw [if_neg h]
    constructor
    · intro hpos
      rw [if_pos (show (0 : ℚ) < v - c.target_voltage from hpos)]
      split_ifs <;> simp_all
    · intro hneg
      rw [if_neg (show ¬ (0 : ℚ) < v - c.target_voltage by linarith)]
      split_ifs <;> simp_all
  · norm_num [_voltage_regulation_step, default_controller, init_controller, sampleA,
      PyFloat.subQ, PyFloat.fabs, PyFloat.leQ, PyFloat.gtQ]
  · norm_num [_voltage_regulation_step, default_controller, init_controller, sampleB,
      PyFloat.subQ, PyFloat.fabs, PyFloat.leQ, PyFloat.gtQ]

/-- C3: the current step is the algorithm symmetric to the voltage step:
a no-op within `current_tolerance` of `target_current`, otherwise a
`duty_step` times 8/4/2/1 tiered adjustment (thresholds 500/250/100 mA),
up towards `max_duty` when the current is above target and down towards
`min_duty` when below, clamped. -/
theorem current_step_tiered_spec (c : Controller) (i : ℚ) (m : Meas)
    (hi : m.current = PyFloat.val i) :
    (|i - c.target_current| ≤ c.current_tolerance →
      _current_regulation_step c m = (c, [])) ∧
    (¬ |i - c.target_current| ≤ c.current_tolerance →
      (0 < i - c.target_current →
        (_current_regulation_step c m).1.current_duty =
          min (c.current_duty + c.duty_step * current_tier |i - c.target_current|)
            c.max_duty) ∧
      (i - c.target_current < 0 →
        (_current_regulation_step c m).1.current_duty =
          max (c.current_duty - c.duty_step * current_tier |i - c.target_current|)
            c.min_duty)) := by
  constructor
  · intro h
    unfold _current_regulation_step
    rw [hi]
    simp only [PyFloat.subQ, PyFloat.fabs_val, PyFloat.leQ, decide_eq_true_eq]
    rw [if_pos h]
  · intro h
    unfold _current_regulation_step
    rw [hi]
    simp only [PyFloat.subQ, PyFloat.fabs_val, PyFloat.leQ, PyFloat.gtQ,
      current_tier, decide_eq_true_eq, gt_iff_lt]
    rw [if_neg h]
    constructor
    · intro hpos
      rw [if_pos (show (0 : ℚ) < i - c.target_current from hpos)]
      split_ifs <;> simp_all
    · intro hneg
      rw [if_neg (show ¬ (0 : ℚ) < i - c.target_current by linarith)]
      split_ifs <;> simp_all

/-- C4: the CC/CV step delegates exactly to the current step when the
sample voltage is below `target_voltage` and exactly to the voltage step
otherwise; being a pure function of the state and the live sample, it
keeps no phase state of its own. -/
theorem cc_cv_delegation (c : Controller) (m : Meas) (v : ℚ)
    (hv : m.voltage = PyFloat.val v) :
    (v < c.target_voltage → _cc_cv_step c m = _current_regulation_step c m) ∧
    (c.target_voltage ≤ v → _cc_cv_step c m = _voltage_regulation_step c m) := by
  constructor
  · intro h
    unfold _cc_cv_step
    rw [hv]
    simp only [PyFloat.ltQ, decide_eq_true_eq]
    rw [if_pos h]
  · intro h
    unfold _cc_cv_step
    rw [hv]
    simp only [PyFloat.ltQ, decide_eq_true_eq]
    rw [if_neg (not_lt.mpr h)]

/-- C5: the safety check passes exactly when both readings are real
(non-NaN) numbers within the `max_voltage`/`max_current` limits, and its
verdict depends only on the sample's voltage and current and the two
limits (it reads and mutates no other controller state). -/
theorem safety_check_policy (c c' : Controller) (m m' : Meas)
    (h1 : m.voltage = m'.voltage) (h2 : m.current = m'.current)
    (h3 : c.max_voltage = c'.max_voltage) (h4 : c.max_current = c'.max_current) :
    _safety_check c m = _safety_check c' m' ∧
    (_safety_check c m = true ↔ ∃ qv qi, m.voltage = PyFloat.val qv ∧
      m.current = PyFloat.val qi ∧ qv ≤ c.max_voltage ∧ qi ≤ c.max_current) := by
  constructor
  · unfold _safety_check
    rw [h1, h2, h3, h4]
  · unfold _safety_check
    rcases hmv : m.voltage with _ | qv <;> rcases hmc : m.current with _ | qi <;>
      simp [PyFloat.isNan, PyFloat.gtQ, not_lt]

/-- C6: every exit of the regulation loop — end of the event stream,
cooperative cancellation, an exception, or a safety break (including on a
NaN sample) — funnels through the same shutdown: the run flag is cleared,
the mode returns to STOPPED, a final measurement is read, and the duty is
driven to `max_duty`. -/
theorem shutdown_on_every_exit (c : Controller) (mode : String)
    (events : List Event) (fr : Option Reading) (fn : ℚ)
    (h : c.min_duty ≤ c.max_duty) :
    (run_loop c mode events fr fn).1.is_running = false ∧
    (run_loop c mode events fr fn).1.current_mode = MODE_STOPPED ∧
    (run_loop c mode events fr fn).1.current_duty = c.max_duty ∧
    HwAction.sensorRead ∈ (run_loop c mode events fr fn).2 := by
  induction events generalizing c with
  | nil =>
      obtain ⟨s1, s2, s3, _, _, s6⟩ := stop_regulation_spec c fr fn h
      exact ⟨s1, s2, s3, s6⟩
  | cons e rest ih =>
      cases e with
      | cancelled =>
          obtain ⟨s1, s2, s3, _, _, s6⟩ := stop_regulation_spec c fr fn h
          exact ⟨s1, s2, s3, s6⟩
      | errored =>
          obtain ⟨s1, s2, s3, _, _, s6⟩ := stop_regulation_spec c fr fn h
          exact ⟨s1, s2, s3, s6⟩
      | cycle now r =>
          obtain ⟨p1, p2⟩ := loop_cycle_min_max c mode now r
          unfold run_loop
          dsimp only
          split_ifs with hbrk
          · obtain ⟨s1, s2, s3, _, _, s6⟩ :=
              stop_regulation_spec (loop_cycle c mode now r).1 fr fn (by omega)
            exact ⟨s1, s2, by rw [s3, p2], List.mem_append_right _ s6⟩
          · obtain ⟨s1, s2, s3, s6⟩ := ih (loop_cycle c mode now r).1 (by omega)
            exact ⟨s1, s2, by rw [s3, p2], List.mem_append_right _ s6⟩

/-- C7 counterexample: `set_control_parameters` performs no validation —
a negative voltage tolerance is accepted and stored (the claim that every
setter validates against safety bounds and leaves state unchanged on
rejection is false for this setter, which also returns no
success/failure indicator). -/
theorem set_control_parameters_unvalidated :
    (set_control_parameters default_controller none (some (-1)) none none).voltage_tolerance
      = -1 ∧
    default_controller.voltage_tolerance = 1/20 ∧
    (set_control_parameters default_controller none (some (-1)) none none)
      ≠ default_controller := by
  refine ⟨rfl, rfl, fun hcontra => ?_⟩
  have hvt : (set_control_parameters default_controller none (some (-1)) none none).voltage_tolerance
      = default_controller.voltage_tolerance := by rw [hcontra]
  rw [show (set_control_parameters default_controller none (some (-1)) none none).voltage_tolerance
      = -1 from rfl] at hvt
  rw [show default_controller.voltage_tolerance = 1/20 from rfl] at hvt
  norm_num at hvt

/-- C7 (amended): `start_regulation` with a mode outside the four running
modes returns `False` leaving the state unchanged, and `set_target_voltage`,
`set_target_current` and `set_duty_cycle` validate against the safety
bounds and reject out-of-range requests as a no-op returning `False`;
`set_control_parameters`, however, stores any supplied values
unconditionally and returns no indicator. -/
theorem boundary_rejection_amended (c : Controller) (v i : ℚ) (d : ℤ)
    (mode : String) (startT fn : ℚ) (events : List Event) (fr : Option Reading)
    (ds : ℤ) (vt ct ui : ℚ)
    (hv : v < 0 ∨ v > c.max_voltage) (hi : i < 0 ∨ i > c.max_current)
    (hd : d < c.min_duty ∨ d > c.max_duty)
    (hm : mode ≠ MODE_VOLTAGE_REGULATION ∧ mode ≠ MODE_CURRENT_LIMITING ∧
      mode ≠ MODE_CC_CV ∧ mode ≠ MODE_CUSTOM) :
    set_target_voltage c v = (c, false) ∧
    set_target_current c i = (c, false) ∧
    set_duty_cycle c d = (c, [], false) ∧
    start_regulation c (some mode) startT events fr fn = (c, [], false) ∧
    set_control_parameters c (some ds) (some vt) (some ct) (some ui) =
      { c with
        duty_step := ds
        voltage_tolerance := vt
        current_tolerance := ct
        update_interval := ui } := by
  refine ⟨?_, ?_, ?_, ?_, rfl⟩
  · unfold set_target_voltage
    rw [if_pos hv]
  · unfold set_target_current
    rw [if_pos hi]
  · unfold set_duty_cycle
    rw [if_pos hd]
  · unfold start_regulation
    dsimp only [Option.getD]
    rw [if_neg (by tauto)]

set_option maxHeartbeats 1600000 in
/-- C8: in hybrid mode a cycle reads the sensor exactly when there is no
cached sample or at least `sensor_read_interval` has elapsed since the
last read; the safety check runs exactly on the cycles with a fresh read,
while every non-breaking cycle applies the mode's step (counted by
`cycle_count`); concretely, ten 1 ms-spaced cycles under a 10 ms sensor
interval produce exactly one fresh sensor read and ten step attempts. -/
theorem hybrid_cadence_spec (c : Controller) (mode : String) (now : ℚ)
    (r : Option Reading) (hh : c.hybrid_mode = true) :
    (HwAction.sensorRead ∈ (loop_cycle c mode now r).2.1 ↔
      (c.cached_measurements = none ∨
        c.sensor_read_interval * 1000 ≤ now - c.last_sensor_read)) ∧
    (HwAction.safetyCheck ∈ (loop_cycle c mode now r).2.1 ↔
      HwAction.sensorRead ∈ (loop_cycle c mode now r).2.1) ∧
    ((loop_cycle c mode now r).2.2 = false →
      (loop_cycle c mode now r).1.cycle_count = c.cycle_count + 1) ∧
    (run_cycles hybrid_start MODE_VOLTAGE_REGULATION hybrid_inputs).2.1.count
      HwAction.sensorRead = 1 ∧
    (run_cycles hybrid_start MODE_VOLTAGE_REGULATION hybrid_inputs).1.cycle_count
      = 10 := by
  have hgen := acquire_acts_hybrid c now r hh
  have hda := dispatch_acts_only_writes (acquire_measurements c now r).1 mode
    (acquire_measurements c now r).2.2.1
  have hdf := dispatch_fields (acquire_measurements c now r).1 mode
    (acquire_measurements c now r).2.2.1
  have hac := acquire_state c now r
  refine ⟨?_, ?_, ?_, ?_, ?_⟩
  · unfold loop_cycle
    dsimp only
    split_ifs with hbrk
    · rcases hgen with ⟨heq, hcond⟩ | ⟨heq, hcond, hfalse⟩
      · rw [heq]
        simp [hcond]
      · rw [hfalse] at hbrk
        simp at hbrk
    · rcases hgen with ⟨heq, hcond⟩ | ⟨heq, hcond, _⟩
      · rw [heq]
        simp [hcond]
      · rw [heq]
        simp only [List.nil_append]
        exact iff_of_false hda.1 hcond
  · unfold loop_cycle
    dsimp only
    split_ifs with hbrk
    · rcases hgen with ⟨heq, hcond⟩ | ⟨heq, hcond, hfalse⟩
      · rw [heq]
        simp
      · rw [hfalse] at hbrk
        simp at hbrk
    · rcases hgen with ⟨heq, hcond⟩ | ⟨heq, hcond, _⟩
      · rw [heq]
        simp
      · rw [heq]
        simp only [List.nil_append]
        exact iff_of_false hda.2 hda.1
  · unfold loop_cycle
    dsimp only
    split_ifs with hbrk
    · intro habs
      simp at habs
    · intro _
      dsimp only
      rw [hdf.2.2, hac.2.2]
  · norm_num [run_cycles, loop_cycle, acquire_measurements, dispatch_step,
      hybrid_fresh_read, read_measurements, _safety_check,
      _voltage_regulation_step, hybrid_start, init_controller, hybrid_inputs,
      PyFloat.subQ, PyFloat.fabs, PyFloat.leQ, PyFloat.gtQ, PyFloat.isNan,
      PyFloat.mul, PyFloat.divQ,
      MODE_VOLTAGE_REGULATION, MODE_CURRENT_LIMITING, MODE_CC_CV, MODE_STOPPED,
      List.count_cons, List.count_append]
    decide
  · norm_num [run_cycles, loop_cycle, acquire_measurements, dispatch_step,
      hybrid_fresh_read, read_measurements, _safety_check,
      _voltage_regulation_step, hybrid_start, init_controller, hybrid_inputs,
      PyFloat.subQ, PyFloat.fabs, PyFloat.leQ, PyFloat.gtQ, PyFloat.isNan,
      PyFloat.mul, PyFloat.divQ,
      MODE_VOLTAGE_REGULATION, MODE_CURRENT_LIMITING, MODE_CC_CV, MODE_STOPPED]

/-- C9 counterexample: invoking `stop_regulation` on a freshly constructed
(already STOPPED, not running) controller is not a no-op on the duty — the
duty is driven from its initial 1000 to `max_duty` 4095 and an actuator
write is emitted. -/
theorem stop_on_stopped_drives_duty :
    default_controller.current_mode = MODE_STOPPED ∧
    default_controller.is_running = false ∧
    default_controller.current_duty = 1000 ∧
    (stop_regulation default_controller
        (some ⟨PyFloat.val 7, PyFloat.val 100⟩) 0).1.current_duty = 4095 ∧
    HwAction.dutyWrite 4095 ∈
      (stop_regulation default_controller
        (some ⟨PyFloat.val 7, PyFloat.val 100⟩) 0).2 := by
  exact ⟨rfl, rfl, rfl, rfl,
    by simp [stop_regulation, set_duty_cycle, read_measurements,
      default_controller, init_controller]⟩

/-- C9 (amended): `stop_regulation` on an already-STOPPED, non-running
controller leaves the mode, the run flag, `cycle_count` and `start_time`
unchanged, but still reads a final measurement and drives the duty to
`max_duty`; it is a no-op on the whole state exactly when the duty already
equals `max_duty`. -/
theorem stop_idempotent_amended (c : Controller) (r : Option Reading) (n : ℚ)
    (hmode : c.current_mode = MODE_STOPPED) (hrun : c.is_running = false)
    (h : c.min_duty ≤ c.max_duty) :
    (stop_regulation c r n).1.current_mode = MODE_STOPPED ∧
    (stop_regulation c r n).1.is_running = false ∧
    (stop_regulation c r n).1.cycle_count = c.cycle_count ∧
    (stop_regulation c r n).1.start_time = c.start_time ∧
    (stop_regulation c r n).1.current_duty = c.max_duty ∧
    (c.current_duty = c.max_duty → (stop_regulation c r n).1 = c) := by
  obtain ⟨s1, s2, s3, s4, s5, _⟩ := stop_regulation_spec c r n h
  refine ⟨s2, s1, s4, s5, s3, ?_⟩
  intro hduty
  have hcond : ¬ (c.max_duty < c.min_duty ∨ c.max_duty > c.max_duty) := by omega
  unfold stop_regulation set_duty_cycle
  rcases c with ⟨⟩
  dsimp only at *
  rw [if_neg hcond]
  simp_all

/-- C10: after construction the initial duty is the fixed constant 1000,
independent of the `min_duty`/`max_duty` parameters, and
`_initialize_hardware` writes it to the actuator without clamping, so any
construction with `max_duty < 1000` or `min_duty > 1000` makes the very
first actuator write fall outside `[min_duty, max_duty]`. -/
theorem initial_duty_unclamped (tv tc vt ct : ℚ) (ds mind maxd : ℤ)
    (ui : ℚ) (sri pui : Option ℚ) (h : maxd < 1000 ∨ 1000 < mind) :
    (init_controller tv tc vt ct ds mind maxd ui sri pui).1.current_duty = 1000 ∧
    (init_controller tv tc vt ct ds mind maxd ui sri pui).1.min_duty = mind ∧
    (init_controller tv tc vt ct ds mind maxd ui sri pui).1.max_duty = maxd ∧
    (init_controller tv tc vt ct ds mind maxd ui sri pui).2 =
      [HwAction.dutyWrite 1000] ∧
    writesInRange mind maxd
      (init_controller tv tc vt ct ds mind maxd ui sri pui).2 = false := by
  refine ⟨rfl, rfl, rfl, rfl, ?_⟩
  simp only [init_controller, writesInRange, List.all_cons, List.all_nil,
    Bool.and_true, decide_eq_false_iff_not]
  omega

/-- Witness for `duty_write_clamp_invariant` at the default controller. -/
theorem duty_write_clamp_invariant_witness :
    (default_controller.min_duty ≤ default_controller.current_duty ∧
      default_controller.current_duty ≤ default_controller.max_duty ∧
      0 ≤ default_controller.duty_step) ∧
    ((default_controller.min_duty ≤
        (_voltage_regulation_step default_controller sampleA).1.current_duty ∧
      (_voltage_regulation_step default_controller sampleA).1.current_duty ≤
        default_controller.max_duty ∧
      writesInRange default_controller.min_duty default_controller.max_duty
        (_voltage_regulation_step default_controller sampleA).2 = true) ∧
    (default_controller.min_duty ≤
        (_current_regulation_step default_controller sampleB).1.current_duty ∧
      (_current_regulation_step default_controller sampleB).1.current_duty ≤
        default_controller.max_duty ∧
      writesInRange default_controller.min_duty default_controller.max_duty
        (_current_regulation_step default_controller sampleB).2 = true) ∧
    (default_controller.min_duty ≤
        (set_duty_cycle default_controller 5000).1.current_duty ∧
      (set_duty_cycle default_controller 5000).1.current_duty ≤
        default_controller.max_duty ∧
      writesInRange default_controller.min_duty default_controller.max_duty
        (set_duty_cycle default_controller 5000).2.1 = true) ∧
    ((5000 < default_controller.min_duty ∨ 5000 > default_controller.max_duty) →
      set_duty_cycle default_controller 5000 = (default_controller, [], false))) :=
  ⟨⟨by decide, by decide, by decide⟩,
    duty_write_clamp_invariant default_controller sampleA sampleB 5000
      (by decide) (by decide) (by decide)⟩

/-- Witness for `voltage_step_tiered_spec` at the default controller and
the 8.0 V sample. -/
theorem voltage_step_tiered_spec_witness :
    sampleA.voltage = PyFloat.val 8 ∧
    ((|8 - default_controller.target_voltage| ≤ default_controller.voltage_tolerance →
      _voltage_regulation_step default_controller sampleA = (default_controller, [])) ∧
    (¬ |8 - default_controller.target_voltage| ≤ default_controller.voltage_tolerance →
      (0 < 8 - default_controller.target_voltage →
        (_voltage_regulation_step default_controller sampleA).1.current_duty =
          min (default_controller.current_duty + default_controller.duty_step *
              voltage_tier |8 - default_controller.target_voltage|)
            default_controller.max_duty) ∧
      (8 - default_controller.target_voltage < 0 →
        (_voltage_regulation_step default_controller sampleA).1.current_duty =
          max (default_controller.current_duty - default_controller.duty_step *
              voltage_tier |8 - default_controller.target_voltage|)
            default_controller.min_duty)) ∧
    (_voltage_regulation_step default_controller sampleA).1.current_duty =
      default_controller.current_duty + 8 ∧
    _voltage_regulation_step default_controller sampleB = (default_controller, [])) :=
  ⟨rfl, voltage_step_tiered_spec default_controller 8 sampleA rfl⟩

/-- Witness for `current_step_tiered_spec` at the default controller and
the 500 mA sample. -/
theorem current_step_tiered_spec_witness :
    sampleA.current = PyFloat.val 500 ∧
    ((|500 - default_controller.target_current| ≤ default_controller.current_tolerance →
      _current_regulation_step default_controller sampleA = (default_controller, [])) ∧
    (¬ |500 - default_controller.target_current| ≤ default_controller.current_tolerance →
      (0 < 500 - default_controller.target_current →
        (_current_regulation_step default_controller sampleA).1.current_duty =
          min (default_controller.current_duty + default_controller.duty_step *
              current_tier |500 - default_controller.target_current|)
            default_controller.max_duty) ∧
      (500 - default_controller.target_current < 0 →
        (_current_regulation_step default_controller sampleA).1.current_duty =
          max (default_controller.current_duty - default_controller.duty_step *
              current_tier |500 - default_controller.target_current|)
            default_controller.min_duty))) :=
  ⟨rfl, current_step_tiered_spec default_controller 500 sampleA rfl⟩

/-- Witness for `cc_cv_delegation` at the default controller and the
8.0 V sample. -/
theorem cc_cv_delegation_witness :
    sampleA.voltage = PyFloat.val 8 ∧
    ((8 < default_controller.target_voltage →
      _cc_cv_step default_controller sampleA =
        _current_regulation_step default_controller sampleA) ∧
    (default_controller.target_voltage ≤ 8 →
      _cc_cv_step default_controller sampleA =
        _voltage_regulation_step default_controller sampleA)) :=
  ⟨rfl, cc_cv_delegation default_controller sampleA 8 rfl⟩

/-- Witness for `safety_check_policy` at the default controller and the
8.0 V / 500 mA sample. -/
theorem safety_check_policy_witness :
    (sampleA.voltage = sampleA.voltage ∧ sampleA.current = sampleA.current ∧
      default_controller.max_voltage = default_controller.max_voltage ∧
      default_controller.max_current = default_controller.max_current) ∧
    (_safety_check default_controller sampleA = _safety_check default_controller sampleA ∧
    (_safety_check default_controller sampleA = true ↔
      ∃ qv qi, sampleA.voltage = PyFloat.val qv ∧ sampleA.current = PyFloat.val qi ∧
        qv ≤ default_controller.max_voltage ∧ qi ≤ default_controller.max_current)) :=
  ⟨⟨rfl, rfl, rfl, rfl⟩,
    safety_check_policy default_controller default_controller sampleA sampleA
      rfl rfl rfl rfl⟩

/-- Witness for `shutdown_on_every_exit`: a run of the default controller
cancelled at the first sleep. -/
theorem shutdown_on_every_exit_witness :
    default_controller.min_duty ≤ default_controller.max_duty ∧
    ((run_loop default_controller MODE_VOLTAGE_REGULATION [Event.cancelled]
        (some ⟨PyFloat.val 7, PyFloat.val 100⟩) 0).1.is_running = false ∧
    (run_loop default_controller MODE_VOLTAGE_REGULATION [Event.cancelled]
        (some ⟨PyFloat.val 7, PyFloat.val 100⟩) 0).1.current_mode = MODE_STOPPED ∧
    (run_loop default_controller MODE_VOLTAGE_REGULATION [Event.cancelled]
        (some ⟨PyFloat.val 7, PyFloat.val 100⟩) 0).1.current_duty =
      default_controller.max_duty ∧
    HwAction.sensorRead ∈ (run_loop default_controller MODE_VOLTAGE_REGULATION
        [Event.cancelled] (some ⟨PyFloat.val 7, PyFloat.val 100⟩) 0).2) :=
  ⟨by decide, shutdown_on_every_exit default_controller MODE_VOLTAGE_REGULATION
    [Event.cancelled] (some ⟨PyFloat.val 7, PyFloat.val 100⟩) 0 (by decide)⟩

/-- Witness for `boundary_rejection_amended` at the default controller with
an overvoltage target, a negative current target, an overrange duty and an
unknown mode string. -/
theorem boundary_rejection_amended_witness :
    ((31 : ℚ) < 0 ∨ (31 : ℚ) > default_controller.max_voltage) ∧
    ((-5 : ℚ) < 0 ∨ (-5 : ℚ) > default_controller.max_current) ∧
    ((5000 : ℤ) < default_controller.min_duty ∨
      (5000 : ℤ) > default_controller.max_duty) ∧
    ("manual" ≠ MODE_VOLTAGE_REGULATION ∧ "manual" ≠ MODE_CURRENT_LIMITING ∧
      "manual" ≠ MODE_CC_CV ∧ "manual" ≠ MODE_CUSTOM) ∧
    (set_target_voltage default_controller 31 = (default_controller, false) ∧
    set_target_current default_controller (-5) = (default_controller, false) ∧
    set_duty_cycle default_controller 5000 = (default_controller, [], false) ∧
    start_regulation default_controller (some "manual") 0 [] none 0 =
      (default_controller, [], false) ∧
    set_control_parameters default_controller (some (-7)) (some (-1)) (some (-1))
        (some 0) =
      { default_controller with
        duty_step := -7
        voltage_tolerance := -1
        current_tolerance := -1
        update_interval := 0 }) :=
  ⟨by decide, by decide, by decide, by decide,
    boundary_rejection_amended default_controller 31 (-5) 5000 "manual" 0 0 [] none
      (-7) (-1) (-1) 0 (by decide) (by decide) (by decide) (by decide)⟩

/-- Witness for `hybrid_cadence_spec` at the hybrid scenario controller. -/
theorem hybrid_cadence_spec_witness :
    hybrid_start.hybrid_mode = true ∧
    ((HwAction.sensorRead ∈ (loop_cycle hybrid_start MODE_VOLTAGE_REGULATION 0
        (some ⟨PyFloat.val 8, PyFloat.val 900⟩)).2.1 ↔
      (hybrid_start.cached_measurements = none ∨
        hybrid_start.sensor_read_interval * 1000 ≤ 0 - hybrid_start.last_sensor_read)) ∧
    (HwAction.safetyCheck ∈ (loop_cycle hybrid_start MODE_VOLTAGE_REGULATION 0
        (some ⟨PyFloat.val 8, PyFloat.val 900⟩)).2.1 ↔
      HwAction.sensorRead ∈ (loop_cycle hybrid_start MODE_VOLTAGE_REGULATION 0
        (some ⟨PyFloat.val 8, PyFloat.val 900⟩)).2.1) ∧
    ((loop_cycle hybrid_start MODE_VOLTAGE_REGULATION 0
        (some ⟨PyFloat.val 8, PyFloat.val 900⟩)).2.2 = false →
      (loop_cycle hybrid_start MODE_VOLTAGE_REGULATION 0
        (some ⟨PyFloat.val 8, PyFloat.val 900⟩)).1.cycle_count =
        hybrid_start.cycle_count + 1) ∧
    (run_cycles hybrid_start MODE_VOLTAGE_REGULATION hybrid_inputs).2.1.count
      HwAction.sensorRead = 1 ∧
    (run_cycles hybrid_start MODE_VOLTAGE_REGULATION hybrid_inputs).1.cycle_count
      = 10) :=
  ⟨rfl, hybrid_cadence_spec hybrid_start MODE_VOLTAGE_REGULATION 0
    (some ⟨PyFloat.val 8, PyFloat.val 900⟩) rfl⟩

/-- Witness for `stop_idempotent_amended` at the default (stopped)
controller. -/
theorem stop_idempotent_amended_witness :
    (default_controller.current_mode = MODE_STOPPED ∧
      default_controller.is_running = false ∧
      default_controller.min_duty ≤ default_controller.max_duty) ∧
    ((stop_regulation default_controller none 5).1.current_mode = MODE_STOPPED ∧
    (stop_regulation default_controller none 5).1.is_running = false ∧
    (stop_regulation default_controller none 5).1.cycle_count =
      default_controller.cycle_count ∧
    (stop_regulation default_controller none 5).1.start_time =
      default_controller.start_time ∧
    (stop_regulation default_controller none 5).1.current_duty =
      default_controller.max_duty ∧
    (default_controller.current_duty = default_controller.max_duty →
      (stop_regulation default_controller none 5).1 = default_controller)) :=
  ⟨⟨rfl, rfl, by decide⟩,
    stop_idempotent_amended default_controller none 5 rfl rfl (by decide)⟩

/-- Witness for `initial_duty_unclamped`: a construction with
`max_duty = 500` makes the first write fall outside the range. -/
theorem initial_duty_unclamped_witness :
    ((500 : ℤ) < 1000 ∨ (1000 : ℤ) < 0) ∧
    ((init_controller 7 1000 1 50 2 0 500 1 none none).1.current_duty = 1000 ∧
    (init_controller 7 1000 1 50 2 0 500 1 none none).1.min_duty = 0 ∧
    (init_controller 7 1000 1 50 2 0 500 1 none none).1.max_duty = 500 ∧
    (init_controller 7 1000 1 50 2 0 500 1 none none).2 =
      [HwAction.dutyWrite 1000] ∧
    writesInRange 0 500 (init_controller 7 1000 1 50 2 0 500 1 none none).2 =
      false) :=
  ⟨Or.inl (by decide),
    initial_duty_unclamped 7 1000 1 50 2 0 500 1 none none (Or.inl (by decide))⟩
